import Mathlib

/-!
Verification of the secure analysis-code execution pipeline of the IcBerg
repository: the AST validator (`backend/core/validator.py`), the sandboxed
execution engine (`backend/core/sandbox.py`), and the retry orchestrator
(`backend/agent/tools.py`).

The Python code is shallowly embedded as executable Lean definitions.
The Python functions `ast.parse` and `ast.walk` are standard-library facilities, not
repository code, so a validated snippet is represented by the sequence of
syntax-tree nodes that `ast.walk(ast.parse(code))` yields; theorems
quantify over arbitrary node sequences (a superset of the real walks), and
concrete snippets are given their actual walk enumeration.  Expression
context markers (`ast.Load` / `ast.Store`), which match none of the
validator checks, are kept as explicit constructors for fidelity of the
concrete walks.  Apostrophes inside the validator message strings are
written with the escape \x27 and denote the ordinary ASCII quote character
of the source messages.
-/

/-- A Python syntax-tree node, restricted to the shapes the validator
checks inspect.  `importStmt` keeps the dotted alias names of `ast.Import`;
`importFrom` keeps the optional `module` of `ast.ImportFrom` (`none` for a
purely relative `from . import ...`).  `constantStr` is an `ast.Constant`
holding a string; `constantOther` any other constant.  `otherNode` stands
for every node kind that no check matches. -/
inductive Node where
  | module (body : List Node)
  | importStmt (names : List String)
  | importFrom (moduleName : Option String)
  | assign (targets : List Node) (value : Node)
  | exprStmt (value : Node)
  | call (func : Node) (args : List Node)
  | name (id : String)
  | attribute (value : Node) (attr : String)
  | subscript (value : Node) (slice : Node)
  | constantStr (s : String)
  | constantOther
  | load
  | store
  | otherNode

/-- Structure `ValidationResult` from `backend/core/validator.py`. -/
structure ValidationResult where
  is_valid : Bool
  violations : List String := []
  sanitized_code : String := ""

/-- Constant `ALLOWED_IMPORT_ROOTS` from `backend/core/validator.py` (line 25). -/
def ALLOWED_IMPORT_ROOTS : List String :=
  ["pandas", "numpy", "matplotlib", "seaborn", "math", "statistics",
   "base64", "io"]

/-- Constant `DANGEROUS_BUILTINS` from `backend/core/validator.py` (line 30). -/
def DANGEROUS_BUILTINS : List String :=
  ["exec", "eval", "open", "__import__", "compile",
   "globals", "locals", "getattr", "setattr", "delattr", "breakpoint",
   "__builtins__"]

/-- The characters before the first dot of a list. -/
def charsUntilDot : List Char → List Char
  | [] => []
  | c :: cs => if c = '.' then [] else c :: charsUntilDot cs

/-- The Python expression `name.split(".")[0]`: the root module of a dotted name is
everything before the first dot (the whole name when it has no dot). -/
def rootOf (dotted : String) : String :=
  String.mk (charsUntilDot dotted.toList)

/-- The Python test `attr.startswith("_")`: the first character is an
underscore. -/
def pyStartsWithUnderscore (s : String) : Bool :=
  match s.toList with
  | [] => false
  | c :: _ => c = '_'

/-- The Python test `not code or not code.strip()`: the code is empty or consists
only of whitespace. -/
def pyIsBlank (code : String) : Bool :=
  code.toList.all Char.isWhitespace

/-- Function `_check_imports` (validator.py lines 87-98): the violations this check
appends for one node. -/
def _check_imports (node : Node) : List String :=
  match node with
  | .importStmt names =>
      names.flatMap (fun nm =>
        if rootOf nm ∈ ALLOWED_IMPORT_ROOTS then []
        else [s!"Blocked import: \x27{nm}\x27 — not in allowed list"])
  | .importFrom (some m) =>
      if rootOf m ∈ ALLOWED_IMPORT_ROOTS then []
      else [s!"Blocked import: \x27from {m}\x27 — not in allowed list"]
  | _ => []

/-- Function `_check_dangerous_calls` (validator.py lines 101-109): a bare
`__builtins__` name reference, then a direct call to a dangerous builtin;
two independent `if` statements in the source, hence the list append. -/
def _check_dangerous_calls (node : Node) : List String :=
  (match node with
   | .name id =>
       if id = "__builtins__" then
         ["Blocked access to: \x27__builtins__\x27 — dangerous operation"]
       else []
   | _ => []) ++
  (match node with
   | .call (.name fid) _ =>
       if fid ∈ DANGEROUS_BUILTINS then
         [s!"Blocked builtin call: \x27{fid}()\x27 — dangerous operation"]
       else []
   | _ => [])

/-- Function `_check_dangerous_attributes` (validator.py lines 112-119): any
attribute access whose attribute name starts with an underscore. -/
def _check_dangerous_attributes (node : Node) : List String :=
  match node with
  | .attribute _ attr =>
      if pyStartsWithUnderscore attr then
        [s!"Blocked attribute access: \x27{attr}\x27 — private/dunder attributes are forbidden"]
      else []
  | _ => []

/-- The transient columns contributed by one node of the walk: for an
`ast.Assign`, every target of the shape `df[<string literal>]`
(`_collect_transient_columns` loop body, validator.py lines 128-136). -/
def assignTransient (node : Node) : List String :=
  match node with
  | .assign targets _ =>
      targets.flatMap (fun t =>
        match t with
        | .subscript (.name v) (.constantStr s) => if v = "df" then [s] else []
        | _ => [])
  | _ => []

/-- Function `_collect_transient_columns` (validator.py lines 122-137) over the walk
of the tree. -/
def _collect_transient_columns (nodes : List Node) : List String :=
  nodes.flatMap assignTransient

/-- Function `_check_column_access` (validator.py lines 140-163).  `known` models
the module global `_known_columns`: `none` when `set_known_columns` was
never called. -/
def _check_column_access (known : Option (List String))
    (transient_columns : List String) (node : Node) : List String :=
  match known with
  | none => []
  | some ks =>
      match node with
      | .subscript (.name v) (.constantStr col) =>
          if v = "df" then
            if col ∈ ks ∨ col ∈ transient_columns then []
            else [s!"Unknown column: \x27{col}\x27 — not in dataset"]
          else []
      | _ => []

/-- The violations appended for one node of the walk, in the order the
`for node in ast.walk(tree)` loop body calls the four checks
(validator.py lines 73-77). -/
def nodeViolations (known : Option (List String))
    (transient_columns : List String) (node : Node) : List String :=
  _check_imports node ++ _check_dangerous_calls node ++
  _check_dangerous_attributes node ++
  _check_column_access known transient_columns node

/-- Function `validate_generated_code` (validator.py lines 50-84).  `code` is the
raw snippet text; `nodes` is the node sequence `ast.walk` yields for its
parse tree (the syntax-error branch is outside the model: theorems
quantify over snippets that parse).  The empty-code guard precedes
parsing in the source and is kept. -/
def validate_generated_code (known : Option (List String)) (code : String)
    (nodes : List Node) : ValidationResult :=
  if pyIsBlank code then
    { is_valid := false, violations := ["Empty code is not allowed"] }
  else
    let transient_columns := _collect_transient_columns nodes
    let violations := nodes.flatMap (nodeViolations known transient_columns)
    { is_valid := violations.isEmpty
      violations := violations
      sanitized_code := if violations.isEmpty then code else "" }

/-!
## Sandbox (`backend/core/sandbox.py`)

The worker process runs `exec(code, ...)` on the snippet; what that call
does (complete, or raise which exception) is outside a shallow embedding
of the repository, so it is the `ExecOutcome` input of the worker model.
Python exception instances are modelled by the nearest ancestor among the
classes the sandbox names; `otherExc` covers exceptions that are instances
of none of them.
-/

/-- A Python exception, classified by the nearest ancestor among the
classes named in `RETRYABLE_ERRORS` / `NON_RETRYABLE_ERRORS` and the
worker `except` clauses; `otherExc` carries the type name of any other
exception. -/
inductive PyExcClass where
  | keyError
  | typeError
  | valueError
  | attributeError
  | indexError
  | zeroDivisionError
  | syntaxError
  | nameError
  | importError
  | memoryError
  | recursionError
  | otherExc (typeName : String)
deriving DecidableEq

/-- The Python expression `type(e).__name__` for the modelled exception classes. -/
def excTypeName (e : PyExcClass) : String :=
  match e with
  | .keyError => "KeyError"
  | .typeError => "TypeError"
  | .valueError => "ValueError"
  | .attributeError => "AttributeError"
  | .indexError => "IndexError"
  | .zeroDivisionError => "ZeroDivisionError"
  | .syntaxError => "SyntaxError"
  | .nameError => "NameError"
  | .importError => "ImportError"
  | .memoryError => "MemoryError"
  | .recursionError => "RecursionError"
  | .otherExc n => n

/-- Constant `RETRYABLE_ERRORS` (sandbox.py line 45). -/
def RETRYABLE_ERRORS : List PyExcClass :=
  [.keyError, .typeError, .valueError, .attributeError, .indexError,
   .zeroDivisionError]

/-- Constant `NON_RETRYABLE_ERRORS` (sandbox.py line 46); declared in the source,
consulted by no code path. -/
def NON_RETRYABLE_ERRORS : List PyExcClass :=
  [.syntaxError, .nameError, .importError, .memoryError, .recursionError]

/-- Function `_classify_error` (sandbox.py lines 98-109):
`isinstance(error, RETRYABLE_ERRORS)`. -/
def _classify_error (error : PyExcClass) : Bool :=
  error ∈ RETRYABLE_ERRORS

/-- A Python value as it crosses the worker result queue: a DataFrame or
Series (carrying its `to_string()` rendering), a string, or any other
non-`None` object (carrying its `str()` rendering). -/
inductive PyValue where
  | dataframe (to_string : String)
  | series (to_string : String)
  | str (s : String)
  | scalarObj (str_form : String)

/-- Function `_detect_output_type` (sandbox.py lines 78-95) on the value bound to
`result` (`none` models Python `None`). -/
def _detect_output_type (value : Option PyValue) : String :=
  match value with
  | none => "none"
  | some (.dataframe _) => "dataframe"
  | some (.series _) => "series"
  | some (.str _) => "string"
  | some (.scalarObj _) => "scalar"

/-- Constant `_IPC_OUTPUT_LIMIT` (sandbox.py line 127). -/
def _IPC_OUTPUT_LIMIT : Nat := 100000

/-- The dictionary a worker puts on the result queue. -/
structure QueuePayload where
  success : Bool
  output : Option PyValue
  output_type : String
  error : Option String
  retryable : Bool

/-- What `exec(code, exec_globals, exec_locals)` inside the worker did:
completed (with the value left in the `result` slot), or raised. -/
inductive ExecOutcome where
  | completed (result : Option PyValue)
  | raises (e : PyExcClass) (msg : String)

/-- Function `_worker` (sandbox.py lines 130-203), from the exec outcome to the
queue payload: on completion, detect the output type, render DataFrame /
Series values to text, truncate oversized strings, and report success; on
an exception, match the `except` clauses of the source in order (`SyntaxError`,
`MemoryError`, then `Exception` via `_classify_error`).  `headroom_mb`
is the memory-limit argument interpolated into the `MemoryError`
message. -/
def _worker (exec_outcome : ExecOutcome) (headroom_mb : Nat) : QueuePayload :=
  match exec_outcome with
  | .completed result =>
      let output_type := _detect_output_type result
      let serialized : Option PyValue :=
        match result with
        | some (.dataframe r) => some (.str r)
        | some (.series r) => some (.str r)
        | o => o
      let output : Option PyValue :=
        match serialized with
        | some (.str s) =>
            if s.length > _IPC_OUTPUT_LIMIT then
              some (.str (s.take _IPC_OUTPUT_LIMIT ++ "\n...[TRUNCATED]"))
            else some (.str s)
        | o => o
      { success := true, output := output, output_type := output_type,
        error := none, retryable := false }
  | .raises e msg =>
      match e with
      | .syntaxError =>
          { success := false, output := none, output_type := "none",
            error := some s!"SyntaxError: {msg}", retryable := false }
      | .memoryError =>
          { success := false, output := none, output_type := "none",
            error := some s!"MemoryError: code exceeded {headroom_mb}MB memory limit",
            retryable := false }
      | _ =>
          { success := false, output := none, output_type := "none",
            error := some s!"{excTypeName e}: {msg}",
            retryable := _classify_error e }

/-- Structure `ExecutionResult` (sandbox.py lines 22-39). -/
structure ExecutionResult where
  success : Bool
  output : Option PyValue := none
  output_type : String := "none"
  error : Option String := none
  retryable : Bool := false
  execution_time_ms : Nat := 0

/-- How the worker process ended, as the parent observes it:
still alive at the timeout; exited with a nonzero code and an empty
queue; exited cleanly with an empty queue; or left a payload on the
queue. -/
inductive WorkerFate where
  | timedOut
  | crashed (exitcode : Int)
  | emptyQueue
  | delivered (payload : QueuePayload)

/-- Function `execute_code` (sandbox.py lines 206-277), from the observed worker
fate to the `ExecutionResult`; `timeoutS` is the `timeout` argument
(seconds) and `elapsed_ms` the measured wall-clock time.  In the
`crashed` branch `exitcode ≠ 0`, matching the source guard
`worker.exitcode != 0 and result_queue.empty()`. -/
def execute_code (fate : WorkerFate) (timeoutS : Nat) (elapsed_ms : Nat) :
    ExecutionResult :=
  match fate with
  | .timedOut =>
      { success := false,
        error := some s!"Timeout: code execution exceeded {timeoutS}s limit",
        retryable := false, execution_time_ms := elapsed_ms }
  | .crashed exitcode =>
      let error_msg :=
        if exitcode = -9 then "Process killed: memory limit exceeded (OOM)"
        else if exitcode < 0 then s!"Process crashed with signal {-exitcode}"
        else s!"Process exited with code {exitcode}"
      { success := false, error := some error_msg,
        retryable := false, execution_time_ms := elapsed_ms }
  | .emptyQueue =>
      { success := false,
        error := some "No result returned from sandbox worker",
        retryable := false, execution_time_ms := elapsed_ms }
  | .delivered payload =>
      { success := payload.success, output := payload.output,
        output_type := payload.output_type, error := payload.error,
        retryable := payload.retryable, execution_time_ms := elapsed_ms }

/-!
## Orchestrator (`backend/agent/tools.py`)

`query_data` and `visualize_data` validate the snippet and drive
`execute_code`.  The engine is abstracted as a function from the code text
passed to `execute_code` and the attempt number (1-based) to the
`ExecutionResult` that call returns; each orchestrator model additionally
returns the ordered list of code texts passed to `execute_code`, so that
"never invokes execute" and "at most `MAX_RETRIES` invocations with the
identical snippet" are observable in the model.
-/

/-- Constant `MAX_RETRIES` (tools.py line 24). -/
def MAX_RETRIES : Nat := 3

/-- The Python f-string rendering of an optional string
(`None` prints as `"None"`). -/
def pyStr (o : Option String) : String :=
  match o with
  | none => "None"
  | some s => s

/-- The Python `str()` rendering of a value crossing back from the sandbox. -/
def pyStrOfValue (v : PyValue) : String :=
  match v with
  | .dataframe r => r
  | .series r => r
  | .str s => s
  | .scalarObj r => r

/-- The success branch of `query_data` (tools.py lines 82-87): render the
`result.output` value to the returned text.  The DataFrame / Series
branches mirror the source even though the worker has already rendered
those to strings. -/
def renderOutput (output : Option PyValue) : String :=
  match output with
  | some (.dataframe r) => r
  | some (.series r) => r
  | some v => pyStrOfValue v
  | none => "No result produced."

/-- The `for attempt in range(1, MAX_RETRIES + 1)` loop of `query_data`
(tools.py lines 77-96): run the engine, return the rendered output on
success, stop with the error on a non-retryable failure, otherwise carry
the error into the next attempt; when attempts run out, return the last
error.  Also returns the codes passed to `execute_code`, in order. -/
def queryLoop (engine : String → Nat → ExecutionResult) (operation : String) :
    Nat → Nat → Option String → String × List String
  | _, 0, last_error => (s!"ERROR: {pyStr last_error}", [])
  | attempt, remaining + 1, _ =>
      let result := engine operation attempt
      if result.success then (renderOutput result.output, [operation])
      else if result.retryable then
        let rest := queryLoop engine operation (attempt + 1) remaining result.error
        (rest.1, operation :: rest.2)
      else (s!"ERROR: {pyStr result.error}", [operation])

/-- Function `query_data` (tools.py lines 56-96): validate, bail out on a
validation failure, otherwise run the retry loop.  `nodes` is the walk of
the parse tree of `operation`. -/
def query_data (known : Option (List String)) (operation : String)
    (nodes : List Node) (engine : String → Nat → ExecutionResult) :
    String × List String :=
  let validation := validate_generated_code known operation nodes
  if validation.is_valid then
    queryLoop engine operation 1 MAX_RETRIES none
  else
    let reasons := String.intercalate "; " validation.violations
    (s!"ERROR: Code validation failed — {reasons}", [])

/-- The wrapper that `visualize_data` builds around the chart code
(tools.py lines 120-133). -/
def wrapChartCode (chart_code : String) : String :=
  "import matplotlib\n" ++
  "matplotlib.use(\x27Agg\x27)\n" ++
  "import matplotlib.pyplot as plt\n" ++
  "import base64, io\n" ++
  s!"{chart_code}\n" ++
  "# --- Auto-injected chart capture ---\n" ++
  "_fig = result if hasattr(result, \x27savefig\x27) else plt.gcf()\n" ++
  "_buf = io.BytesIO()\n" ++
  "_fig.savefig(_buf, format=\x27png\x27, bbox_inches=\x27tight\x27, dpi=100)\n" ++
  "_buf.seek(0)\n" ++
  "result = base64.b64encode(_buf.read()).decode(\x27utf-8\x27)\n" ++
  "plt.close(\x27all\x27)\n"

/-- Function `visualize_data` (tools.py lines 100-143): validate the raw chart
code, bail out on a validation failure, otherwise execute the wrapped
code once and return the base64 payload when a non-empty string came
back.  `nodes` is the walk of the parse tree of `chart_code`. -/
def visualize_data (known : Option (List String)) (chart_code : String)
    (nodes : List Node) (engine : String → Nat → ExecutionResult) :
    String × List String :=
  let validation := validate_generated_code known chart_code nodes
  if validation.is_valid then
    let wrapped_code := wrapChartCode chart_code
    let exec_result := engine wrapped_code 1
    if exec_result.success then
      match exec_result.output with
      | some (.str s) =>
          if s ≠ "" then (s!"BASE64:{s}", [wrapped_code])
          else ("ERROR: Chart rendering produced no output", [wrapped_code])
      | _ => ("ERROR: Chart rendering produced no output", [wrapped_code])
    else (s!"ERROR: {pyStr exec_result.error}", [wrapped_code])
  else
    let reasons := String.intercalate "; " validation.violations
    (s!"ERROR: Code validation failed — {reasons}", [])

/-!
## Concrete syntax-tree walks

The node sequences `ast.walk` yields for the small snippets used as
concrete instances (breadth-first, context and alias nodes included).
-/

/-- Walk of the snippet `x._foo`. -/
def underscoreAttrNodes : List Node :=
  [.module [.exprStmt (.attribute (.name "x") "_foo")],
   .exprStmt (.attribute (.name "x") "_foo"),
   .attribute (.name "x") "_foo",
   .name "x", .load, .load]

/-- Walk of the snippet that calls `input` on one string literal. -/
def inputCallNodes : List Node :=
  [.module [.exprStmt (.call (.name "input") [.constantStr "x"])],
   .exprStmt (.call (.name "input") [.constantStr "x"]),
   .call (.name "input") [.constantStr "x"],
   .name "input", .constantStr "x", .load]

/-- Walk of the snippet that calls `eval` on one string literal. -/
def evalCallNodes : List Node :=
  [.module [.exprStmt (.call (.name "eval") [.constantStr "1"])],
   .exprStmt (.call (.name "eval") [.constantStr "1"]),
   .call (.name "eval") [.constantStr "1"],
   .name "eval", .constantStr "1", .load]

/-- Walk of the snippet `import os` (the trailing `otherNode` is the
`ast.alias` child node). -/
def importOsNodes : List Node :=
  [.module [.importStmt ["os"]], .importStmt ["os"], .otherNode]

/-- The assignment target `df[<c>]` as it appears in an `ast.Assign`. -/
def dfAssignTarget (c : String) : Node :=
  .subscript (.name "df") (.constantStr c)

/-- The statement `df[<c>] = 0`. -/
def dfAssignStmt (c : String) : Node :=
  .assign [dfAssignTarget c] .constantOther

/-- The read expression `df[<c>]`. -/
def dfReadExpr (c : String) : Node :=
  .subscript (.name "df") (.constantStr c)

/-- Walk of the two-statement snippet `df[<c>] = 0` then `df[<c>]`:
the assignment precedes the read. -/
def assignThenReadNodes (c : String) : List Node :=
  [.module [dfAssignStmt c, .exprStmt (dfReadExpr c)],
   dfAssignStmt c, .exprStmt (dfReadExpr c),
   dfAssignTarget c, .constantOther, dfReadExpr c,
   .name "df", .constantStr c, .store,
   .name "df", .constantStr c, .load]

/-- Walk of the two-statement snippet `df[<c>]` then `df[<c>] = 0`:
the read textually precedes the assignment. -/
def readThenAssignNodes (c : String) : List Node :=
  [.module [.exprStmt (dfReadExpr c), dfAssignStmt c],
   .exprStmt (dfReadExpr c), dfAssignStmt c,
   dfReadExpr c, dfAssignTarget c, .constantOther,
   .name "df", .constantStr c, .load,
   .name "df", .constantStr c, .store]

/-- Walk of the snippet `result = 1`. -/
def resultOneNodes : List Node :=
  [.module [.assign [.name "result"] .constantOther],
   .assign [.name "result"] .constantOther,
   .name "result", .constantOther, .store]

/-- Walk of the snippet `df["Zork"]`: a lone read of an unknown column. -/
def zorkReadNodes : List Node :=
  [.module [.exprStmt (dfReadExpr "Zork")],
   .exprStmt (dfReadExpr "Zork"), dfReadExpr "Zork",
   .name "df", .constantStr "Zork", .load, .load]

/-!
## Theorems

Helper lemmas about the validator, shared by several claims.
-/

/-- For non-blank code, the violations are the concatenation of the
per-node violations over the walk. -/
theorem validator_violations_eq (known : Option (List String)) (code : String)
    (nodes : List Node) (h : pyIsBlank code = false) :
    (validate_generated_code known code nodes).violations
      = nodes.flatMap (nodeViolations known (_collect_transient_columns nodes)) := by
  simp [validate_generated_code, h]

/-- For non-blank code, validity is emptiness of the accumulated
violations. -/
theorem validator_is_valid_eq (known : Option (List String)) (code : String)
    (nodes : List Node) (h : pyIsBlank code = false) :
    (validate_generated_code known code nodes).is_valid
      = (nodes.flatMap (nodeViolations known (_collect_transient_columns nodes))).isEmpty := by
  simp [validate_generated_code, h]

/-- A violation produced for any node of the walk ends up in the final
violations list. -/
theorem validator_mem_violations (known : Option (List String)) (code : String)
    (nodes : List Node) (node : Node) (v : String) (h : pyIsBlank code = false)
    (hn : node ∈ nodes)
    (hv : v ∈ nodeViolations known (_collect_transient_columns nodes) node) :
    v ∈ (validate_generated_code known code nodes).violations := by
  rw [validator_violations_eq known code nodes h]
  exact List.mem_flatMap.mpr ⟨node, hn, hv⟩

/-- Any violation in the final list forces `is_valid = false`. -/
theorem validator_invalid_of_mem_violations (known : Option (List String))
    (code : String) (nodes : List Node) (v : String)
    (hv : v ∈ (validate_generated_code known code nodes).violations) :
    (validate_generated_code known code nodes).is_valid = false := by
  by_cases h : pyIsBlank code = true
  · simp [validate_generated_code, h]
  · rw [Bool.not_eq_true] at h
    rw [validator_is_valid_eq known code nodes h]
    rw [validator_violations_eq known code nodes h] at hv
    simpa [List.isEmpty_iff] using List.ne_nil_of_mem hv

/-- C1: for every snippet that parses, if any syntax-tree node is an
attribute access whose attribute name starts with an underscore, then
`validate_generated_code` returns invalid and its violations list contains
the blocked-attribute-access violation for that attribute name — for every
underscore-prefixed name, not only known dunders.  (A walk containing an
attribute node can only come from non-blank code, hence the blank-code
hypothesis.) -/
theorem C1_underscore_attribute_blocked (known : Option (List String))
    (code : String) (nodes : List Node) (v : Node) (a : String)
    (hcode : pyIsBlank code = false)
    (hmem : Node.attribute v a ∈ nodes)
    (hund : pyStartsWithUnderscore a = true) :
    (validate_generated_code known code nodes).is_valid = false ∧
    s!"Blocked attribute access: \x27{a}\x27 — private/dunder attributes are forbidden"
      ∈ (validate_generated_code known code nodes).violations := by
  have hv : s!"Blocked attribute access: \x27{a}\x27 — private/dunder attributes are forbidden"
      ∈ nodeViolations known (_collect_transient_columns nodes) (Node.attribute v a) := by
    simp [nodeViolations, _check_dangerous_attributes, hund]
  have hmemv := validator_mem_violations known code nodes (Node.attribute v a) _ hcode hmem hv
  exact ⟨validator_invalid_of_mem_violations known code nodes _ hmemv, hmemv⟩

/-- C1 witness: the snippet `x._foo` is rejected with the
blocked-attribute-access violation for `_foo`. -/
theorem C1_witness :
    (validate_generated_code none "x._foo" underscoreAttrNodes).is_valid = false ∧
    "Blocked attribute access: \x27_foo\x27 — private/dunder attributes are forbidden"
      ∈ (validate_generated_code none "x._foo" underscoreAttrNodes).violations := by
  have h := C1_underscore_attribute_blocked none "x._foo" underscoreAttrNodes
    (Node.name "x") "_foo" (by decide) (by simp [underscoreAttrNodes]) (by decide)
  simpa using h

/-- C2 counterexample: the claim puts `input` on the fixed validator
deny-list, but `DANGEROUS_BUILTINS` does not contain it — a snippet
making a direct bare-name call to `input` validates as fully
valid with no violations. -/
theorem C2_counterexample :
    (validate_generated_code none "input(\x27x\x27)" inputCallNodes).is_valid = true ∧
    "input" ∉ DANGEROUS_BUILTINS := by
  decide

/-- C2 (amended): the fixed validator deny-list `DANGEROUS_BUILTINS` is
exec, eval, open, __import__, compile, globals, locals, getattr, setattr,
delattr, breakpoint, __builtins__ — interactive input is not on it; for
every snippet that parses, a direct call by bare name to any operation on
that list causes `validate_generated_code` to return invalid with a
violation naming that operation. -/
theorem C2_dangerous_call_blocked (known : Option (List String))
    (code : String) (nodes : List Node) (f : String) (args : List Node)
    (hcode : pyIsBlank code = false)
    (hmem : Node.call (Node.name f) args ∈ nodes)
    (hf : f ∈ DANGEROUS_BUILTINS) :
    (validate_generated_code known code nodes).is_valid = false ∧
    s!"Blocked builtin call: \x27{f}()\x27 — dangerous operation"
      ∈ (validate_generated_code known code nodes).violations := by
  have hv : s!"Blocked builtin call: \x27{f}()\x27 — dangerous operation"
      ∈ nodeViolations known (_collect_transient_columns nodes)
          (Node.call (Node.name f) args) := by
    simp [nodeViolations, _check_dangerous_calls, hf]
  have hmemv := validator_mem_violations known code nodes
    (Node.call (Node.name f) args) _ hcode hmem hv
  exact ⟨validator_invalid_of_mem_violations known code nodes _ hmemv, hmemv⟩

/-- C2 witness: a snippet calling `eval` on a string literal is rejected with the
blocked-builtin-call violation naming `eval`. -/
theorem C2_witness :
    (validate_generated_code none "eval(\x271\x27)" evalCallNodes).is_valid = false ∧
    "Blocked builtin call: \x27eval()\x27 — dangerous operation"
      ∈ (validate_generated_code none "eval(\x271\x27)" evalCallNodes).violations := by
  have h := C2_dangerous_call_blocked none "eval(\x271\x27)" evalCallNodes
    "eval" [.constantStr "1"] (by decide) (by simp [evalCallNodes]) (by decide)
  simpa using h

/-- C3: for every snippet that parses and contains an import — `import M`
or `from M import ...` — whose root module is not in
`ALLOWED_IMPORT_ROOTS`, `validate_generated_code` returns invalid and the
violations list contains a blocked-import violation naming that module. -/
theorem C3_blocked_import (known : Option (List String)) (code : String)
    (nodes : List Node) (hcode : pyIsBlank code = false) :
    (∀ names nm, Node.importStmt names ∈ nodes → nm ∈ names →
        rootOf nm ∉ ALLOWED_IMPORT_ROOTS →
        (validate_generated_code known code nodes).is_valid = false ∧
        s!"Blocked import: \x27{nm}\x27 — not in allowed list"
          ∈ (validate_generated_code known code nodes).violations) ∧
    (∀ m, Node.importFrom (some m) ∈ nodes →
        rootOf m ∉ ALLOWED_IMPORT_ROOTS →
        (validate_generated_code known code nodes).is_valid = false ∧
        s!"Blocked import: \x27from {m}\x27 — not in allowed list"
          ∈ (validate_generated_code known code nodes).violations) := by
  constructor
  · intro names nm hnode hnm hroot
    have hv : s!"Blocked import: \x27{nm}\x27 — not in allowed list"
        ∈ nodeViolations known (_collect_transient_columns nodes)
            (Node.importStmt names) := by
      have : s!"Blocked import: \x27{nm}\x27 — not in allowed list"
          ∈ _check_imports (Node.importStmt names) := by
        simp only [_check_imports]
        exact List.mem_flatMap.mpr ⟨nm, hnm, by simp [hroot]⟩
      simp [nodeViolations, this]
    have hmemv := validator_mem_violations known code nodes
      (Node.importStmt names) _ hcode hnode hv
    exact ⟨validator_invalid_of_mem_violations known code nodes _ hmemv, hmemv⟩
  · intro m hnode hroot
    have hv : s!"Blocked import: \x27from {m}\x27 — not in allowed list"
        ∈ nodeViolations known (_collect_transient_columns nodes)
            (Node.importFrom (some m)) := by
      simp [nodeViolations, _check_imports, hroot]
    have hmemv := validator_mem_violations known code nodes
      (Node.importFrom (some m)) _ hcode hnode hv
    exact ⟨validator_invalid_of_mem_violations known code nodes _ hmemv, hmemv⟩

/-- C3 witness: the snippet `import os` is rejected with the
blocked-import violation naming `os`. -/
theorem C3_witness :
    (validate_generated_code none "import os" importOsNodes).is_valid = false ∧
    "Blocked import: \x27os\x27 — not in allowed list"
      ∈ (validate_generated_code none "import os" importOsNodes).violations := by
  have h := (C3_blocked_import none "import os" importOsNodes (by decide)).1
    ["os"] "os" (by simp [importOsNodes]) (by decide) (by decide)
  simpa using h

/-- C4: with `KnownColumnSet` registered, a string-literal subscript of
`df` is flagged as an unknown-column violation exactly when the key is in
neither the known set nor the literal-string-key same-snippet
assignments; a read of a key absent from both sets makes
`validate_generated_code` return invalid, while an assign-then-read
snippet of a key outside `KnownColumnSet` is valid. -/
theorem C4_unknown_column (ks : List String) :
    (∀ transient c,
        _check_column_access (some ks) transient
            (Node.subscript (Node.name "df") (Node.constantStr c)) ≠ [] ↔
          (c ∉ ks ∧ c ∉ transient)) ∧
    (∀ code nodes c, pyIsBlank code = false →
        Node.subscript (Node.name "df") (Node.constantStr c) ∈ nodes →
        c ∉ ks → c ∉ _collect_transient_columns nodes →
        (validate_generated_code (some ks) code nodes).is_valid = false ∧
        s!"Unknown column: \x27{c}\x27 — not in dataset"
          ∈ (validate_generated_code (some ks) code nodes).violations) ∧
    (∀ code c, pyIsBlank code = false →
        (validate_generated_code (some ks) code (assignThenReadNodes c)).is_valid = true) := by
  refine ⟨?_, ?_, ?_⟩
  · intro transient c
    by_cases h : c ∈ ks ∨ c ∈ transient <;>
      simp [_check_column_access, h, not_or] <;> tauto
  · intro code nodes c hcode hmem hks htr
    have hv : s!"Unknown column: \x27{c}\x27 — not in dataset"
        ∈ nodeViolations (some ks) (_collect_transient_columns nodes)
            (Node.subscript (Node.name "df") (Node.constantStr c)) := by
      simp [nodeViolations, _check_column_access, hks, htr]
    have hmemv := validator_mem_violations (some ks) code nodes
      (Node.subscript (Node.name "df") (Node.constantStr c)) _ hcode hmem hv
    exact ⟨validator_invalid_of_mem_violations (some ks) code nodes _ hmemv, hmemv⟩
  · intro code c hcode
    rw [validator_is_valid_eq _ _ _ hcode]
    simp [assignThenReadNodes, nodeViolations, _check_imports,
      _check_dangerous_calls, _check_dangerous_attributes,
      _check_column_access, _collect_transient_columns, assignTransient,
      dfAssignStmt, dfAssignTarget, dfReadExpr]

/-- C4 witness: over `KnownColumnSet = {Age}`, the lone read `df["Zork"]`
is invalid with the unknown-column violation, while the snippet that
assigns `df["X"] = 0` before reading `df["X"]` is valid although `X` is
not a known column. -/
theorem C4_witness :
    ((validate_generated_code (some ["Age"]) "df[\x27Zork\x27]" zorkReadNodes).is_valid = false ∧
     "Unknown column: \x27Zork\x27 — not in dataset"
       ∈ (validate_generated_code (some ["Age"]) "df[\x27Zork\x27]" zorkReadNodes).violations) ∧
    (validate_generated_code (some ["Age"]) "df[\x27X\x27] = 0\ndf[\x27X\x27]"
        (assignThenReadNodes "X")).is_valid = true := by
  constructor
  · have h := (C4_unknown_column ["Age"]).2.1 "df[\x27Zork\x27]" zorkReadNodes "Zork"
      (by decide) (by simp [zorkReadNodes, dfReadExpr]) (by decide) (by decide)
    simpa using h
  · exact (C4_unknown_column ["Age"]).2.2 "df[\x27X\x27] = 0\ndf[\x27X\x27]" "X" (by decide)

/-- C10: the transient-column pre-pass is position-insensitive — assigned
keys are collected over the whole walk before any check runs, so whenever
an assignment `df[c] = ...` appears anywhere among the nodes, `c` is in
the transient set and the column check flags no read `df[c]`; in
particular the snippet whose read textually precedes the assignment is
valid. -/
theorem C10_transient_prepass (known : Option (List String))
    (nodes : List Node) :
    (∀ targets value c, Node.assign targets value ∈ nodes →
        Node.subscript (Node.name "df") (Node.constantStr c) ∈ targets →
        c ∈ _collect_transient_columns nodes ∧
        _check_column_access known (_collect_transient_columns nodes)
          (Node.subscript (Node.name "df") (Node.constantStr c)) = []) ∧
    (∀ ks code c, pyIsBlank code = false →
        (validate_generated_code (some ks) code (readThenAssignNodes c)).is_valid = true) := by
  constructor
  · intro targets value c hassign htarget
    have htc : c ∈ _collect_transient_columns nodes := by
      refine List.mem_flatMap.mpr ⟨Node.assign targets value, hassign, ?_⟩
      simp only [assignTransient]
      exact List.mem_flatMap.mpr ⟨_, htarget, by simp⟩
    refine ⟨htc, ?_⟩
    cases known with
    | none => rfl
    | some ks => simp [_check_column_access, htc]
  · intro ks code c hcode
    rw [validator_is_valid_eq _ _ _ hcode]
    simp [readThenAssignNodes, nodeViolations, _check_imports,
      _check_dangerous_calls, _check_dangerous_attributes,
      _check_column_access, _collect_transient_columns, assignTransient,
      dfAssignStmt, dfAssignTarget, dfReadExpr]

/-- C10 witness: in the snippet `df["X"]` followed by `df["X"] = 0`, the
key `X` is collected by the pre-pass, the read is not flagged, and the
whole snippet validates as valid over `KnownColumnSet = {Age}`. -/
theorem C10_witness :
    ("X" ∈ _collect_transient_columns (readThenAssignNodes "X") ∧
     _check_column_access (some ["Age"])
       (_collect_transient_columns (readThenAssignNodes "X"))
       (Node.subscript (Node.name "df") (Node.constantStr "X")) = []) ∧
    (validate_generated_code (some ["Age"]) "df[\x27X\x27]\ndf[\x27X\x27] = 0"
        (readThenAssignNodes "X")).is_valid = true := by
  constructor
  · exact (C10_transient_prepass (some ["Age"]) (readThenAssignNodes "X")).1
      [dfAssignTarget "X"] .constantOther "X"
      (by simp [readThenAssignNodes, dfAssignStmt])
      (by simp [dfAssignTarget])
  · exact (C10_transient_prepass (some ["Age"]) (readThenAssignNodes "X")).2
      ["Age"] "df[\x27X\x27]\ndf[\x27X\x27] = 0" "X" (by decide)

/-- C5 counterexample: the worker reports `retryable = true` for a
`ValueError`, although `ValueError` (a bad value, not a bad key /
attribute / index, type mismatch, or division by zero) is not among the
five user-fixable kinds of the claim — the "exactly when" fails. -/
theorem C5_counterexample :
    (_worker (ExecOutcome.raises PyExcClass.valueError
        "could not convert string to float") 1024).retryable = true ∧
    PyExcClass.valueError ∉
      ([.keyError, .attributeError, .indexError, .typeError,
        .zeroDivisionError] : List PyExcClass) := by
  decide

/-- C5 (amended): for every exception raised by executed snippet code
inside the worker, the reported outcome has `succeeded = false`, and
`retryable = true` exactly when the exception is one of
`RETRYABLE_ERRORS` — KeyError, TypeError, ValueError, AttributeError,
IndexError, ZeroDivisionError (bad key, type mismatch, bad value, bad
attribute, bad index, division by zero); it is false for SyntaxError,
NameError, ImportError, MemoryError, RecursionError and every other
exception kind. -/
theorem C5_retryable_classification (e : PyExcClass) (msg : String)
    (headroom_mb : Nat) :
    (_worker (ExecOutcome.raises e msg) headroom_mb).success = false ∧
    ((_worker (ExecOutcome.raises e msg) headroom_mb).retryable = true ↔
      e ∈ RETRYABLE_ERRORS) := by
  cases e <;> simp [_worker, _classify_error, RETRYABLE_ERRORS]

/-- C5 witness: a KeyError raised in the worker is reported as a failed,
retryable outcome. -/
theorem C5_witness :
    (_worker (ExecOutcome.raises PyExcClass.keyError "\x27Zork\x27") 1024).success = false ∧
    ((_worker (ExecOutcome.raises PyExcClass.keyError "\x27Zork\x27") 1024).retryable = true ↔
      PyExcClass.keyError ∈ RETRYABLE_ERRORS) :=
  C5_retryable_classification PyExcClass.keyError "\x27Zork\x27" 1024

/-- C8: every `ExecutionResult` that `execute_code` can produce — a
payload a worker put on the queue (clean completion or in-worker
exception), a timeout, a memory kill or crash, or a missing payload —
satisfies: `success = true` implies `error` is absent and
`retryable = false`. -/
theorem C8_success_invariant (fate : WorkerFate) (timeoutS elapsed_ms : Nat)
    (hfate : ∀ p, fate = WorkerFate.delivered p →
        ∃ exec_outcome headroom_mb, p = _worker exec_outcome headroom_mb)
    (hsucc : (execute_code fate timeoutS elapsed_ms).success = true) :
    (execute_code fate timeoutS elapsed_ms).error = none ∧
    (execute_code fate timeoutS elapsed_ms).retryable = false := by
  cases fate with
  | timedOut => simp [execute_code] at hsucc
  | crashed exitcode => simp [execute_code] at hsucc
  | emptyQueue => simp [execute_code] at hsucc
  | delivered p =>
      obtain ⟨exec_outcome, headroom_mb, rfl⟩ := hfate p rfl
      cases exec_outcome with
      | completed result => simp [execute_code, _worker]
      | raises e msg => cases e <;> simp [execute_code, _worker] at hsucc

/-- C8 witness: a worker that completes cleanly with the string `42`
yields a successful `ExecutionResult` with no error and
`retryable = false`. -/
theorem C8_witness :
    (∀ p, WorkerFate.delivered
        (_worker (ExecOutcome.completed (some (PyValue.str "42"))) 1024) =
          WorkerFate.delivered p →
        ∃ exec_outcome headroom_mb, p = _worker exec_outcome headroom_mb) ∧
    (execute_code (WorkerFate.delivered
        (_worker (ExecOutcome.completed (some (PyValue.str "42"))) 1024))
        5 12).success = true ∧
    ((execute_code (WorkerFate.delivered
        (_worker (ExecOutcome.completed (some (PyValue.str "42"))) 1024))
        5 12).error = none ∧
     (execute_code (WorkerFate.delivered
        (_worker (ExecOutcome.completed (some (PyValue.str "42"))) 1024))
        5 12).retryable = false) := by
  have hfate : ∀ p, WorkerFate.delivered
      (_worker (ExecOutcome.completed (some (PyValue.str "42"))) 1024) =
        WorkerFate.delivered p →
      ∃ exec_outcome headroom_mb, p = _worker exec_outcome headroom_mb := by
    intro p hp
    injection hp with h
    exact ⟨ExecOutcome.completed (some (PyValue.str "42")), 1024, h.symm⟩
  have hsucc : (execute_code (WorkerFate.delivered
      (_worker (ExecOutcome.completed (some (PyValue.str "42"))) 1024))
      5 12).success = true := by decide
  exact ⟨hfate, hsucc, C8_success_invariant _ 5 12 hfate hsucc⟩

/-- C9: a string output of a worker run whose length exceeds
`_IPC_OUTPUT_LIMIT` (100,000) crosses the process boundary as its first
100,000 characters followed by the explicit truncation marker, and an
output at or under the ceiling crosses unchanged. -/
theorem C9_ipc_truncation (s : String) (headroom_mb : Nat) :
    (_worker (ExecOutcome.completed (some (PyValue.str s))) headroom_mb).output =
      some (PyValue.str (if s.length > _IPC_OUTPUT_LIMIT
        then s.take _IPC_OUTPUT_LIMIT ++ "\n...[TRUNCATED]" else s)) ∧
    (s.length ≤ _IPC_OUTPUT_LIMIT →
      (_worker (ExecOutcome.completed (some (PyValue.str s))) headroom_mb).output =
        some (PyValue.str s)) := by
  constructor
  · by_cases h : s.length > _IPC_OUTPUT_LIMIT <;> simp [_worker, h]
  · intro h
    simp [_worker, Nat.not_lt.mpr h]

/-- C9 witness: the five-character output `hello` is at most the ceiling
and crosses unchanged. -/
theorem C9_witness :
    "hello".length ≤ _IPC_OUTPUT_LIMIT ∧
    (_worker (ExecOutcome.completed (some (PyValue.str "hello"))) 1024).output =
      some (PyValue.str "hello") :=
  ⟨by decide, (C9_ipc_truncation "hello" 1024).2 (by decide)⟩

/-- The elaborated form of an interpolated string with one hole and no
tail reduces to a plain append. -/
theorem interp_append_eq (a r : String) :
    toString a ++ toString r ++ toString "" = a ++ r := by
  show a ++ r ++ "" = a ++ r
  rw [String.append_empty]

/-- C6: whenever validation fails, both orchestrator tools return the
validation-failure error built from the violations and pass nothing to
`execute_code` (the engine-call trace is empty): a validation failure
never reaches the engine on any run. -/
theorem C6_validation_failure_blocks_execution (known : Option (List String))
    (code : String) (nodes : List Node)
    (engine : String → Nat → ExecutionResult)
    (hinvalid : (validate_generated_code known code nodes).is_valid = false) :
    query_data known code nodes engine =
      ("ERROR: Code validation failed — " ++
        String.intercalate "; " (validate_generated_code known code nodes).violations,
       []) ∧
    visualize_data known code nodes engine =
      ("ERROR: Code validation failed — " ++
        String.intercalate "; " (validate_generated_code known code nodes).violations,
       []) := by
  constructor <;> simp [query_data, visualize_data, hinvalid, interp_append_eq]

/-- C6 witness: for the invalid snippet `import os`, both tools return the
validation-failure error and invoke the engine zero times. -/
theorem C6_witness :
    query_data none "import os" importOsNodes (fun _ _ => { success := true }) =
      ("ERROR: Code validation failed — " ++
        String.intercalate "; "
          (validate_generated_code none "import os" importOsNodes).violations,
       []) ∧
    visualize_data none "import os" importOsNodes (fun _ _ => { success := true }) =
      ("ERROR: Code validation failed — " ++
        String.intercalate "; "
          (validate_generated_code none "import os" importOsNodes).violations,
       []) :=
  C6_validation_failure_blocks_execution none "import os" importOsNodes
    (fun _ _ => { success := true }) (by decide)

/-- Exhausted attempts return the last error and make no engine call. -/
theorem queryLoop_zero (engine : String → Nat → ExecutionResult)
    (operation : String) (attempt : Nat) (last_error : Option String) :
    queryLoop engine operation attempt 0 last_error =
      ("ERROR: " ++ pyStr last_error, []) := by
  simp [queryLoop, interp_append_eq]

/-- A successful attempt stops the loop and returns the rendered output;
exactly one engine call is made. -/
theorem queryLoop_success (engine : String → Nat → ExecutionResult)
    (operation : String) (attempt n : Nat) (last_error : Option String)
    (h : (engine operation attempt).success = true) :
    queryLoop engine operation attempt (n + 1) last_error =
      (renderOutput (engine operation attempt).output, [operation]) := by
  simp [queryLoop, h]

/-- A non-retryable failure stops the loop immediately with that error;
exactly one engine call is made. -/
theorem queryLoop_nonretryable (engine : String → Nat → ExecutionResult)
    (operation : String) (attempt n : Nat) (last_error : Option String)
    (hs : (engine operation attempt).success = false)
    (hr : (engine operation attempt).retryable = false) :
    queryLoop engine operation attempt (n + 1) last_error =
      ("ERROR: " ++ pyStr (engine operation attempt).error, [operation]) := by
  simp [queryLoop, hs, hr, interp_append_eq]

/-- A retryable failure records the error and tries the next attempt with
the identical operation text. -/
theorem queryLoop_retryable (engine : String → Nat → ExecutionResult)
    (operation : String) (attempt n : Nat) (last_error : Option String)
    (hs : (engine operation attempt).success = false)
    (hr : (engine operation attempt).retryable = true) :
    queryLoop engine operation attempt (n + 1) last_error =
      ((queryLoop engine operation (attempt + 1) n (engine operation attempt).error).1,
       operation ::
         (queryLoop engine operation (attempt + 1) n (engine operation attempt).error).2) := by
  simp [queryLoop, hs, hr]

/-- The loop makes at most as many engine calls as it has attempts. -/
theorem queryLoop_length_le (engine : String → Nat → ExecutionResult)
    (operation : String) :
    ∀ n attempt last_error,
      (queryLoop engine operation attempt n last_error).2.length ≤ n := by
  intro n
  induction n with
  | zero => intro attempt last_error; simp [queryLoop_zero]
  | succ n ih =>
      intro attempt last_error
      by_cases hs : (engine operation attempt).success
      · simp [queryLoop_success engine operation attempt n last_error hs]
      · rw [Bool.not_eq_true] at hs
        by_cases hr : (engine operation attempt).retryable
        · rw [queryLoop_retryable engine operation attempt n last_error hs hr]
          simpa using Nat.succ_le_succ (ih (attempt + 1) _)
        · rw [Bool.not_eq_true] at hr
          simp [queryLoop_nonretryable engine operation attempt n last_error hs hr]
  
/-- Every engine call of the loop passes the identical operation text. -/
theorem queryLoop_calls_eq_operation (engine : String → Nat → ExecutionResult)
    (operation : String) :
    ∀ n attempt last_error c,
      c ∈ (queryLoop engine operation attempt n last_error).2 →
      c = operation := by
  intro n
  induction n with
  | zero => intro attempt last_error c hc; simp [queryLoop_zero] at hc
  | succ n ih =>
      intro attempt last_error c hc
      by_cases hs : (engine operation attempt).success
      · rw [queryLoop_success engine operation attempt n last_error hs] at hc
        simpa using hc
      · rw [Bool.not_eq_true] at hs
        by_cases hr : (engine operation attempt).retryable
        · rw [queryLoop_retryable engine operation attempt n last_error hs hr] at hc
          rcases List.mem_cons.mp hc with h | h
          · exact h
          · exact ih (attempt + 1) _ c h
        · rw [Bool.not_eq_true] at hr
          rw [queryLoop_nonretryable engine operation attempt n last_error hs hr] at hc
          simpa using hc

/-- A valid snippet sends `query_data` into the retry loop with
`MAX_RETRIES` attempts. -/
theorem query_data_valid_eq (known : Option (List String)) (operation : String)
    (nodes : List Node) (engine : String → Nat → ExecutionResult)
    (hvalid : (validate_generated_code known operation nodes).is_valid = true) :
    query_data known operation nodes engine =
      queryLoop engine operation 1 MAX_RETRIES none := by
  simp [query_data, hvalid]

/-- C7: for a valid snippet the orchestrator invokes `execute_code` at
most `MAX_RETRIES` (3) times, strictly sequentially, always passing the
identical snippet text; it stops at the first success with the rendered
value, stops immediately with the error at the first non-retryable
failure, and after three retryable failures returns the last error. -/
theorem C7_retry_protocol (known : Option (List String)) (operation : String)
    (nodes : List Node) (engine : String → Nat → ExecutionResult)
    (hvalid : (validate_generated_code known operation nodes).is_valid = true) :
    ((query_data known operation nodes engine).2.length ≤ MAX_RETRIES ∧
     ∀ c ∈ (query_data known operation nodes engine).2, c = operation) ∧
    ((engine operation 1).success = true →
      query_data known operation nodes engine =
        (renderOutput (engine operation 1).output, [operation])) ∧
    ((engine operation 1).success = false →
      (engine operation 1).retryable = false →
      query_data known operation nodes engine =
        ("ERROR: " ++ pyStr (engine operation 1).error, [operation])) ∧
    ((engine operation 1).success = false →
      (engine operation 1).retryable = true →
      ((engine operation 2).success = true →
        query_data known operation nodes engine =
          (renderOutput (engine operation 2).output, [operation, operation])) ∧
      ((engine operation 2).success = false →
        (engine operation 2).retryable = false →
        query_data known operation nodes engine =
          ("ERROR: " ++ pyStr (engine operation 2).error,
           [operation, operation])) ∧
      ((engine operation 2).success = false →
        (engine operation 2).retryable = true →
        ((engine operation 3).success = true →
          query_data known operation nodes engine =
            (renderOutput (engine operation 3).output,
             [operation, operation, operation])) ∧
        ((engine operation 3).success = false →
          query_data known operation nodes engine =
            ("ERROR: " ++ pyStr (engine operation 3).error,
             [operation, operation, operation])))) := by
  have hq := query_data_valid_eq known operation nodes engine hvalid
  refine ⟨⟨?_, ?_⟩, ?_, ?_, ?_⟩
  · rw [hq]
    exact queryLoop_length_le engine operation MAX_RETRIES 1 none
  · rw [hq]
    intro c hc
    exact queryLoop_calls_eq_operation engine operation MAX_RETRIES 1 none c hc
  · intro h1
    rw [hq]
    simp [MAX_RETRIES, queryLoop, h1]
  · intro h1s h1r
    rw [hq]
    simp [MAX_RETRIES, queryLoop, h1s, h1r, interp_append_eq]
  · intro h1s h1r
    refine ⟨?_, ?_, ?_⟩
    · intro h2
      rw [hq]
      simp [MAX_RETRIES, queryLoop, h1s, h1r, h2]
    · intro h2s h2r
      rw [hq]
      simp [MAX_RETRIES, queryLoop, h1s, h1r, h2s, h2r, interp_append_eq]
    · intro h2s h2r
      refine ⟨?_, ?_⟩
      · intro h3
        rw [hq]
        simp [MAX_RETRIES, queryLoop, h1s, h1r, h2s, h2r, h3]
      · intro h3s
        rw [hq]
        by_cases h3r : (engine operation 3).retryable <;>
          simp [MAX_RETRIES, queryLoop, h1s, h1r, h2s, h2r, h3s, h3r,
            interp_append_eq]

/-- C7 witness: a valid snippet whose first attempt succeeds is executed
exactly once and its rendered output returned. -/
theorem C7_witness :
    (validate_generated_code none "result = 1" resultOneNodes).is_valid = true ∧
    query_data none "result = 1" resultOneNodes
        (fun _ _ => { success := true, output := some (PyValue.str "1") }) =
      (renderOutput (some (PyValue.str "1")), ["result = 1"]) := by
  refine ⟨by decide, ?_⟩
  have h := (C7_retry_protocol none "result = 1" resultOneNodes
      (fun _ _ => { success := true, output := some (PyValue.str "1") })
      (by decide)).2.1 rfl
  simpa using h
